import Mathlib

/-!
Shallow embedding of the "Objection" debate-practice application: the grading-response
parsing, the heuristic fallback grader, the generation retry pipeline, the judge-argument
endpoint handlers of the several server variants, and the client round state machine.
Machine strings are modelled as Lean `String`/`List Char`; regex tests over the fixed
literal alternations of the source are modelled by explicit scans.
-/

namespace Objection

/-! ### JS string primitives (ASCII model) -/

/-- ASCII lower-casing: how a case-insensitive regex relates subject text to the
all-lowercase ASCII literals used as patterns in the source. -/
def lowerChar (c : Char) : Char :=
  if 65 ≤ c.toNat ∧ c.toNat ≤ 90 then Char.ofNat (c.toNat + 32) else c

/-- JS regex `\d`. -/
def isDigitChar (c : Char) : Bool := decide (48 ≤ c.toNat ∧ c.toNat ≤ 57)

/-- JS regex `\s` (ASCII: space, tab, LF, VT, FF, CR). -/
def isJsSpace (c : Char) : Bool :=
  decide (c.toNat = 32 ∨ c.toNat = 9 ∨ c.toNat = 10 ∨ c.toNat = 11 ∨ c.toNat = 12 ∨ c.toNat = 13)

/-- JS regex `\w` (word character). -/
def isWordChar (c : Char) : Bool :=
  decide ((48 ≤ c.toNat ∧ c.toNat ≤ 57) ∨ (65 ≤ c.toNat ∧ c.toNat ≤ 90) ∨
    (97 ≤ c.toNat ∧ c.toNat ≤ 122) ∨ c.toNat = 95)

/-- `p` is a literal prefix of `s`. -/
def isPrefixL : List Char → List Char → Bool
  | [], _ => true
  | _ :: _, [] => false
  | p :: ps, c :: cs => p == c && isPrefixL ps cs

/-- Case-insensitive match of the (lowercase ASCII) literal `pat` at the start of `s`. -/
def ciPrefixAt (pat s : List Char) : Bool :=
  isPrefixL pat ((s.take pat.length).map lowerChar)

/-- JS `String.prototype.trim` (ASCII whitespace). -/
def trimL (s : List Char) : List Char :=
  ((s.dropWhile isJsSpace).reverse.dropWhile isJsSpace).reverse

/-- Value of a list of decimal digit characters, as JS `parseInt`/`Number` read it. -/
def digitsToNat (ds : List Char) : Nat :=
  ds.foldl (fun n c => 10 * n + (c.toNat - 48)) 0

/-- JS `/p1|p2|.../i.test(s)`: does any alternative occur in `s` (alternatives are the
lowercase literals of the source, tried left to right at each position)? -/
def testAnyCI (pats : List (List Char)) : List Char → Bool
  | [] => pats.any (fun p => ciPrefixAt p [])
  | c :: cs => pats.any (fun p => ciPrefixAt p (c :: cs)) || testAnyCI pats cs

/-- Fuel-driven worker for the global match count: each step consumes at least one
character, so fuel equal to the subject length never runs out before the subject does
(the fuel only makes the recursion structural, hence kernel-reducible). -/
def countMatchesAux (pats : List (List Char)) : Nat → List Char → Nat
  | 0, _ => 0
  | _, [] => 0
  | fuel + 1, c :: cs =>
    match pats.find? (fun p => ciPrefixAt p (c :: cs)) with
    | some p => 1 + countMatchesAux pats fuel (cs.drop (p.length - 1))
    | none => countMatchesAux pats fuel cs

/-- Number of matches of `s.match(/p1|p2|.../gi)`: global scan, leftmost match wins,
alternatives tried in order, scan resumes after each match. -/
def countMatchesCI (pats : List (List Char)) (s : List Char) : Nat :=
  countMatchesAux pats s.length s

/-- `.test` on a `String` subject. -/
def jsTestCI (pats : List String) (s : String) : Bool :=
  testAnyCI (pats.map String.data) s.data

/-- Global match count on a `String` subject. -/
def jsCountCI (pats : List String) (s : String) : Nat :=
  countMatchesCI (pats.map String.data) s.data

/-! ### Heuristic Fallback Grader
(`src/unnamed/part_002`, judge-argument catch handler, the `fallbackScore` computation) -/

/-- `/example|evidence|study|research|data|statistic|according to|research shows/i`. -/
def evidenceTestPats : List String :=
  ["example", "evidence", "study", "research", "data", "statistic", "according to",
   "research shows"]

/-- `/perspective|impact|affect|feel|experience|harm|benefit|suffer|struggle|vulnerable/i`. -/
def empathyTestPats : List String :=
  ["perspective", "impact", "affect", "feel", "experience", "harm", "benefit", "suffer",
   "struggle", "vulnerable"]

/-- `/however|although|while|some may argue|critics|opponents|on the other hand/i`. -/
def counterTestPats : List String :=
  ["however", "although", "while", "some may argue", "critics", "opponents",
   "on the other hand"]

/-- `/first|second|finally|furthermore|additionally|in conclusion|therefore/i`. -/
def structureTestPats : List String :=
  ["first", "second", "finally", "furthermore", "additionally", "in conclusion", "therefore"]

/-- `reasoningScore`: base 10, +8 if length > 300, +7 more if length > 500. -/
def reasoningScore (argument : String) : Nat :=
  10 + (if argument.length > 300 then 8 else 0) + (if argument.length > 500 then 7 else 0)

/-- `evidenceScore`: base 10, +10 if `hasEvidence`, +5 if `/example|evidence|study/gi`
matches at least twice. -/
def evidenceScore (argument : String) : Nat :=
  10 + (if jsTestCI evidenceTestPats argument then 10 else 0) +
    (if 2 ≤ jsCountCI ["example", "evidence", "study"] argument then 5 else 0)

/-- `empathyScore`: base 10, +10 if `hasEmpathy`, +5 if `/impact|affect|harm|benefit/gi`
matches at least twice. -/
def empathyScore (argument : String) : Nat :=
  10 + (if jsTestCI empathyTestPats argument then 10 else 0) +
    (if 2 ≤ jsCountCI ["impact", "affect", "harm", "benefit"] argument then 5 else 0)

/-- `rhetoricsScore`: base 10, +8 if `hasStructure`, +7 if `hasCounterargument`. -/
def rhetoricsScore (argument : String) : Nat :=
  10 + (if jsTestCI structureTestPats argument then 8 else 0) +
    (if jsTestCI counterTestPats argument then 7 else 0)

/-- `fallbackScore = reasoningScore + evidenceScore + empathyScore + rhetoricsScore`. -/
def fallbackScore (argument : String) : Nat :=
  reasoningScore argument + evidenceScore argument + empathyScore argument +
    rhetoricsScore argument

/-! Component bounds, shared by the range theorem. -/

theorem reasoningScore_bounds (a : String) :
    10 ≤ reasoningScore a ∧ reasoningScore a ≤ 25 := by
  unfold reasoningScore; split_ifs <;> omega

theorem evidenceScore_bounds (a : String) :
    10 ≤ evidenceScore a ∧ evidenceScore a ≤ 25 := by
  unfold evidenceScore; split_ifs <;> omega

theorem empathyScore_bounds (a : String) :
    10 ≤ empathyScore a ∧ empathyScore a ≤ 25 := by
  unfold empathyScore; split_ifs <;> omega

theorem rhetoricsScore_bounds (a : String) :
    10 ≤ rhetoricsScore a ∧ rhetoricsScore a ≤ 25 := by
  unfold rhetoricsScore; split_ifs <;> omega

/-- C3: for every argument text, the heuristic fallback score (a natural number, mirroring
the integer arithmetic of the source) lies in [40, 100]; on the empty argument every
component sits at its base value of 10 and the score is exactly 40. -/
theorem fallbackScore_range_and_empty :
    (∀ a : String, 40 ≤ fallbackScore a ∧ fallbackScore a ≤ 100) ∧ fallbackScore "" = 40 := by
  constructor
  · intro a
    have h1 := reasoningScore_bounds a
    have h2 := evidenceScore_bounds a
    have h3 := empathyScore_bounds a
    have h4 := rhetoricsScore_bounds a
    unfold fallbackScore
    omega
  · decide

/-- The argument text of end-to-end scenario 2, exactly as quoted in the spec. -/
def scenario2Text : String :=
  "For example, research shows that this harms vulnerable communities; however critics argue otherwise. First, ..."

/-- C5 counterexample: on the scenario-2 text the heuristic fallback score is 75,
not the 100 the claim states. -/
theorem scenario2_score_is_75_not_100 :
    fallbackScore scenario2Text = 75 ∧ fallbackScore scenario2Text ≠ 100 := by
  decide

/-- C5 amended: on the scenario-2 text all four keyword signals fire (evidence, empathy,
counterargument, structure), giving components 10 + 20 + 20 + 25, so the score is 75; the
two "at least two matches" bonuses and the length bonuses do not fire. -/
theorem scenario2_signals_and_score :
    jsTestCI evidenceTestPats scenario2Text = true ∧
    jsTestCI empathyTestPats scenario2Text = true ∧
    jsTestCI counterTestPats scenario2Text = true ∧
    jsTestCI structureTestPats scenario2Text = true ∧
    reasoningScore scenario2Text = 10 ∧
    evidenceScore scenario2Text = 20 ∧
    empathyScore scenario2Text = 20 ∧
    rhetoricsScore scenario2Text = 25 ∧
    fallbackScore scenario2Text = 75 := by
  decide

/-! ### Grading Response Parser
Score extraction of the judge handlers (`src/server.js`, `src/unnamed/part_001`,
`src/unnamed/part_002`, `src/api/server.js`) and `parseVerdict` of `src/unnamed/part_004`. -/

/-- Case-insensitive literal matcher: if the lowercase ASCII literal `pat` matches the
head of `s`, return the remainder of `s`. -/
def stripCI : List Char → List Char → Option (List Char)
  | [], s => some s
  | _ :: _, [] => none
  | p :: ps, c :: cs => if p == lowerChar c then stripCI ps cs else none

/-- The `SCORE:` marker (the regexes carry the `i` flag). -/
def scoreMarker : List Char := "score:".data

/-- Attempt of `/SCORE:\s*(\d+)/i` at the current position: the marker, greedy
whitespace, then the digit run (the regex requires at least one digit). -/
def scoreDigitsAt (s : List Char) : Option (List Char) :=
  match stripCI scoreMarker s with
  | none => none
  | some rest =>
    let ds := (rest.dropWhile isJsSpace).takeWhile isDigitChar
    if ds.isEmpty then none else some ds

/-- Scan of `/SCORE:\s*(\d+)/i` over the whole subject: digits of the leftmost match. -/
def findScoreDigits : List Char → Option (List Char)
  | [] => none
  | c :: cs =>
    match scoreDigitsAt (c :: cs) with
    | some ds => some ds
    | none => findScoreDigits cs

/-- `text.match(/SCORE:\s*(\d+)/i)` followed by `parseInt` on the capture, with the
caller-supplied default when there is no match. -/
def serverScoreOf (text : String) (dflt : Nat) : Nat :=
  match findScoreDigits text.data with
  | some ds => digitsToNat ds
  | none => dflt

/-- Score consumed by the `src/server.js` judge handler: `scoreMatch ? parseInt(...) : 70`. -/
def serverJudgeScore (text : String) : Nat := serverScoreOf text 70

/-- Score consumed by the `part_001`/`part_002`/`api/server.js` judge handlers:
`scoreMatch ? parseInt(...) : 75` (same regex, default 75). -/
def part002JudgeScore (text : String) : Nat := serverScoreOf text 75

/-- Attempt of a `\d{1,3}` capture followed by the literal `/100`, taking exactly `k`
digits. -/
def per100Try (k : Nat) (s : List Char) : Option Nat :=
  let ds := s.take k
  if ds.length = k ∧ ds.all isDigitChar = true ∧ isPrefixL "/100".data (s.drop k) = true then
    some (digitsToNat ds)
  else none

/-- Attempt of `/(\b)(\d{1,3})(\/100)/` at a position: `\b` holds when the previous
character is absent or a non-word character (the next character must be a digit, hence a
word character); the greedy `\d{1,3}` backtracks from three digits down to one. -/
def per100At (prev : Option Char) (s : List Char) : Option Nat :=
  if (match prev with | none => true | some p => !isWordChar p) = true then
    per100Try 3 s <|> per100Try 2 s <|> per100Try 1 s
  else none

/-- Scan of `/(\b)(\d{1,3})(\/100)/`: value of the leftmost match. -/
def scanPer100 : Option Char → List Char → Option Nat
  | _, [] => none
  | prev, c :: cs =>
    match per100At prev (c :: cs) with
    | some n => some n
    | none => scanPer100 (some c) cs

/-- The `FEEDBACK:` marker (the regex carries the `i` flag). -/
def feedbackMarker : List Char := "feedback:".data

/-- Scan of `/FEEDBACK:\s*(.*)/is`: the text after the first `FEEDBACK:` marker and the
following whitespace, to the end of the subject (dot-all capture). -/
def findAfterFeedback : List Char → Option (List Char)
  | [] => none
  | c :: cs =>
    match stripCI feedbackMarker (c :: cs) with
    | some rest => some (rest.dropWhile isJsSpace)
    | none => findAfterFeedback cs

/-- Result of `parseVerdict` (string branch). -/
structure ParsedVerdict where
  score : Nat
  title : String
  message : String
deriving DecidableEq, Repr

/-- `parseVerdict` of `src/unnamed/part_004`, string branch:
`raw.match(/(SCORE:\s*)(\d{1,3})/i) || raw.match(/(\b)(\d{1,3})(\/100)/)` (the first
capture keeps at most three digits), `score ?? 0`, title from the score, and the message
is the trimmed capture of `/FEEDBACK:\s*(.*)/is` when present, else the whole raw text. -/
def parseVerdictStr (raw : String) : ParsedVerdict :=
  let m1 := (findScoreDigits raw.data).map (fun ds => digitsToNat (ds.take 3))
  let m2 := scanPer100 none raw.data
  let score? := m1 <|> m2
  { score := score?.getD 0
    title := match score? with
      | some n => "Score: " ++ toString n ++ "/100"
      | none => "Judge Feedback"
    message := match findAfterFeedback raw.data with
      | some rest => String.mk (trimL rest)
      | none => raw }

/-! Digit-run facts shared by the no-clamping theorem. -/

theorem digit_not_jsSpace {c : Char} (h : isDigitChar c = true) : isJsSpace c = false := by
  simp only [isDigitChar, decide_eq_true_eq] at h
  simp only [isJsSpace, decide_eq_false_iff_not]
  omega

theorem dropWhile_isJsSpace_of_digits (ds : List Char) (hne : ds ≠ [])
    (h : ds.all isDigitChar = true) : ds.dropWhile isJsSpace = ds := by
  cases ds with
  | nil => exact absurd rfl hne
  | cons c t =>
    simp only [List.all_cons, Bool.and_eq_true] at h
    simp [List.dropWhile_cons, digit_not_jsSpace h.1]

theorem takeWhile_isDigit_of_digits (ds : List Char) (h : ds.all isDigitChar = true) :
    ds.takeWhile isDigitChar = ds := by
  induction ds with
  | nil => rfl
  | cons c t ih =>
    simp only [List.all_cons, Bool.and_eq_true] at h
    simp [List.takeWhile_cons, h.1, ih h.2]

/-- C1 counterexample: raw grading text carrying `SCORE: 150` is consumed as 150 — not
clamped to 100 — by the server judge handlers and by `parseVerdict`. -/
theorem score150_not_clamped :
    serverJudgeScore "SCORE: 150\nVERDICT: Strong.\nFEEDBACK: None." = 150 ∧
    serverJudgeScore "SCORE: 150\nVERDICT: Strong.\nFEEDBACK: None." ≠ 100 ∧
    (parseVerdictStr "SCORE: 150\nVERDICT: Strong.\nFEEDBACK: None.").score = 150 ∧
    (parseVerdictStr "SCORE: 150\nVERDICT: Strong.\nFEEDBACK: None.").score ≠ 100 := by
  decide

/-- C1 amended: no clamping happens anywhere downstream — the digit run after the first
`SCORE:` marker is consumed verbatim under every caller default (so 150 stays 150), and
`parseVerdict` likewise keeps 150. -/
theorem score_consumed_unclamped :
    (∀ (ds : List Char) (d : Nat), ds ≠ [] → ds.all isDigitChar = true →
      serverScoreOf (String.mk ('S' :: 'C' :: 'O' :: 'R' :: 'E' :: ':' :: ' ' :: ds)) d
        = digitsToNat ds) ∧
    (parseVerdictStr "SCORE: 150").score = 150 := by
  constructor
  · intro ds d hne hdig
    have h1 : ds.dropWhile isJsSpace = ds := dropWhile_isJsSpace_of_digits ds hne hdig
    have h2 : ds.takeWhile isDigitChar = ds := takeWhile_isDigit_of_digits ds hdig
    have hsda : scoreDigitsAt ('S' :: 'C' :: 'O' :: 'R' :: 'E' :: ':' :: ' ' :: ds)
        = some ds := by
      show (if ((ds.dropWhile isJsSpace).takeWhile isDigitChar).isEmpty then none
            else some ((ds.dropWhile isJsSpace).takeWhile isDigitChar)) = some ds
      rw [h1, h2]
      cases ds with
      | nil => exact absurd rfl hne
      | cons c t => rfl
    have hfind : findScoreDigits ('S' :: 'C' :: 'O' :: 'R' :: 'E' :: ':' :: ' ' :: ds)
        = some ds := by
      show (match scoreDigitsAt ('S' :: 'C' :: 'O' :: 'R' :: 'E' :: ':' :: ' ' :: ds) with
            | some ds => some ds
            | none => findScoreDigits ('C' :: 'O' :: 'R' :: 'E' :: ':' :: ' ' :: ds))
          = some ds
      rw [hsda]
    show (match findScoreDigits ('S' :: 'C' :: 'O' :: 'R' :: 'E' :: ':' :: ' ' :: ds) with
          | some ds => digitsToNat ds
          | none => d) = digitsToNat ds
    rw [hfind]
  · decide

/-- C1 amended, witness: the digit run `150` after `SCORE: ` is consumed as the value 150. -/
theorem score_consumed_unclamped_witness :
    serverScoreOf (String.mk ('S' :: 'C' :: 'O' :: 'R' :: 'E' :: ':' :: ' ' :: "150".data)) 70
      = digitsToNat "150".data :=
  score_consumed_unclamped.1 "150".data 70 (by decide) (by decide)

/-- A grading text with no `SCORE:` marker, no `N/100` pattern and no `FEEDBACK:` marker. -/
def noMarkerText : String := "Great argument with solid reasoning."

/-- C7 counterexample: with no `SCORE:` marker the parsers do not fail and keep the full
text as the body, but the defaults of the parsers the claim cites are 0 (`parseVerdict`,
which takes no caller default) and 70 (`src/server.js`) — not 75. -/
theorem no_marker_default_not_75 :
    (parseVerdictStr noMarkerText).score = 0 ∧
    (parseVerdictStr noMarkerText).score ≠ 75 ∧
    (parseVerdictStr noMarkerText).message = noMarkerText ∧
    serverJudgeScore noMarkerText = 70 ∧
    serverJudgeScore noMarkerText ≠ 75 := by
  decide

/-- C7 amended: for raw text with no score pattern and no `FEEDBACK:` marker, no parser
fails: `parseVerdict` returns score 0, title "Judge Feedback" and the full raw text as
message; the `src/server.js` handler defaults to 70; the `part_001`/`part_002`/
`api/server.js` handlers default to 75. -/
theorem no_marker_defaults (raw : String) (hne : raw ≠ "")
    (h1 : findScoreDigits raw.data = none)
    (h2 : scanPer100 none raw.data = none)
    (h3 : findAfterFeedback raw.data = none) :
    parseVerdictStr raw = ⟨0, "Judge Feedback", raw⟩ ∧
    serverJudgeScore raw = 70 ∧ part002JudgeScore raw = 75 := by
  simp [parseVerdictStr, serverJudgeScore, part002JudgeScore, serverScoreOf, h1, h2, h3]

/-- C7 amended, witness at a concrete marker-free text. -/
theorem no_marker_defaults_witness :
    parseVerdictStr noMarkerText = ⟨0, "Judge Feedback", noMarkerText⟩ ∧
    serverJudgeScore noMarkerText = 70 ∧ part002JudgeScore noMarkerText = 75 :=
  no_marker_defaults noMarkerText (by decide) (by decide) (by decide) (by decide)

/-! ### Text Generation Gateway: `generateWithRetry` of `src/server.js` -/

/-- A failure of the text-generation capability as the callers distinguish them. -/
inductive GenError
  | emptyOrBlocked
  | notConfigured
  | transport
deriving DecidableEq, Repr

/-- Outcome of one `model.generateContent` call as seen by the caller: extracted response
text (possibly blank for an empty/blocked completion), or a thrown error. -/
inductive GenOutcome
  | ok (text : String)
  | thrown (e : GenError)
deriving DecidableEq, Repr

/-- Fuel-driven worker for a global case-insensitive literal replace; fuel equal to the
subject length never runs out (each step consumes at least one character) and only makes
the recursion structural. -/
def replaceScanAux (pats : List (List Char)) (repl : List Char) :
    Nat → List Char → List Char
  | 0, s => s
  | _, [] => []
  | fuel + 1, c :: cs =>
    match pats.find? (fun p => ciPrefixAt p (c :: cs)) with
    | some p => repl ++ replaceScanAux pats repl fuel (cs.drop (p.length - 1))
    | none => c :: replaceScanAux pats repl fuel cs

/-- JS `s.replace(/p1|p2|.../gi, repl)` for literal alternatives, tried in source order
at each position, leftmost match first, scan resuming after each match. -/
def jsReplaceAllCI (pats : List String) (repl : String) (s : String) : String :=
  String.mk (replaceScanAux (pats.map String.data) repl.data s.data.length s.data)

/-- The softened prompt built by `generateWithRetry` in `src/server.js`: strip the
role-play framing (`/Judge Gemini|You are Judge Gemini/gi`) and the strict format demand,
each replaced by a softer phrasing. -/
def soften (prompt : String) : String :=
  jsReplaceAllCI ["evaluate with score out of 100, verdict, and constructive feedback"]
    "Provide a helpful approximate score and practical feedback for the student."
    (jsReplaceAllCI ["judge gemini", "you are judge gemini"]
      "You are an experienced debate coach" prompt)

/-- Result of `generateWithRetry`: a non-blank trimmed text, the `{ text: "" }` outcome,
or a re-raised error. -/
inductive GWRResult
  | success (text : String)
  | empty
  | raised (e : GenError)
deriving DecidableEq, Repr

/-- A `generateWithRetry` run together with the prompts actually sent. -/
structure GWRTrace where
  result : GWRResult
  promptsSent : List String
deriving DecidableEq, Repr

/-- `generateWithRetry(model, prompt, opts)` of `src/server.js`. `attempt1`/`attempt2`
are the outcomes the capability would give to the first and to the possible retry call.
A thrown error is re-raised at once (`catch (err) { throw err; }`), so a retry happens
only after a first call returning blank text, uses the softened prompt, and a non-blank
retry text is accepted as the result. -/
def generateWithRetry (attempt1 attempt2 : GenOutcome) (prompt : String) (retries : Nat) :
    GWRTrace :=
  match attempt1 with
  | .thrown e => ⟨.raised e, [prompt]⟩
  | .ok t =>
    if trimL t.data ≠ [] then ⟨.success (String.mk (trimL t.data)), [prompt]⟩
    else if 0 < retries then
      match attempt2 with
      | .thrown e => ⟨.raised e, [prompt, soften prompt]⟩
      | .ok t2 =>
        if trimL t2.data ≠ [] then
          ⟨.success (String.mk (trimL t2.data)), [prompt, soften prompt]⟩
        else ⟨.empty, [prompt, soften prompt]⟩
    else ⟨.empty, [prompt]⟩

/-- C8: the pipeline sends at most two prompts; a thrown first call is re-raised with no
retry; a non-blank first response is accepted with one call; a blank first response
triggers exactly one retry carrying the softened prompt, and a non-blank retry text is
accepted with no further fallback. -/
theorem retry_policy (a1 a2 : GenOutcome) (p : String) :
    (generateWithRetry a1 a2 p 1).promptsSent.length ≤ 2 ∧
    (∀ e, a1 = .thrown e → generateWithRetry a1 a2 p 1 = ⟨.raised e, [p]⟩) ∧
    (∀ t, a1 = .ok t → trimL t.data ≠ [] →
      generateWithRetry a1 a2 p 1 = ⟨.success (String.mk (trimL t.data)), [p]⟩) ∧
    (∀ t t2, a1 = .ok t → trimL t.data = [] → a2 = .ok t2 → trimL t2.data ≠ [] →
      generateWithRetry a1 a2 p 1
        = ⟨.success (String.mk (trimL t2.data)), [p, soften p]⟩) := by
  refine ⟨?_, ?_, ?_, ?_⟩
  · cases a1 with
    | thrown e => simp [generateWithRetry]
    | ok t =>
      cases a2 with
      | thrown e => simp only [generateWithRetry]; split_ifs <;> simp
      | ok t2 => simp only [generateWithRetry]; split_ifs <;> simp
  · rintro e rfl; rfl
  · rintro t rfl h; simp [generateWithRetry, h]
  · rintro t t2 rfl h rfl h2; simp [generateWithRetry, h, h2]

/-- C8 witness: blank first response, non-blank retry response — the retry text is
accepted and both the original and the softened prompt were sent. -/
theorem retry_policy_witness :
    generateWithRetry (.ok " ") (.ok " A solid case. ") "PROMPT" 1
      = ⟨.success (String.mk (trimL " A solid case. ".data)), ["PROMPT", soften "PROMPT"]⟩ :=
  (retry_policy (.ok " ") (.ok " A solid case. ") "PROMPT").2.2.2 " " " A solid case. "
    rfl (by decide) rfl (by decide)

/-! ### Judge-argument endpoint handlers -/

/-- A judge-argument request body; a field is `none` when absent. -/
structure JudgeReq where
  prompt : Option String
  argument : Option String
deriving DecidableEq, Repr

/-- JS falsiness of a string request field: absent (`undefined`) or the empty string. -/
def falsyStr : Option String → Bool
  | none => true
  | some s => s == ""

/-- Shape of a judge-argument HTTP response as far as the claims reach, plus the prompts
sent to the text-generation capability while handling the request. -/
structure JudgeHttpResult where
  status : Nat
  score : Option ℚ
  verdict : Option String
  generationPrompts : List String
deriving DecidableEq, Repr

/-- The judge instruction template of `src/server.js` (after its `.trim()`). -/
def serverJudgeInstruction (prompt argument : String) : String :=
  "You are an experienced debate coach. Read the CASE and the ROOKIE LAWYER'S DEFENSE below.\nCASE: "
    ++ prompt
    ++ "\n\nROOKIE LAWYER'S DEFENSE:\n"
    ++ argument
    ++ "\n\nProvide an evaluation in this EXACT format (no extra text):\nSCORE: [number from 0-100]\nVERDICT: [In 2-3 sentences, explain whether the defense would likely succeed]\nFEEDBACK: [In 2-3 sentences, concrete, constructive advice to improve the argument]\n\nKeep the output concise and only in that format."

/-- Fallback verdict of the empty-text branch of the `src/server.js` judge handler. -/
def serverEmptyFallbackVerdict : String :=
  "SCORE: 75\nVERDICT: Decent argument with room to expand evidence and counterclaims.\nFEEDBACK: Add specific examples and address counterarguments directly."

/-- Fallback verdict of the catch branch of the `src/server.js` judge handler. -/
def serverCatchFallbackVerdict : String :=
  "SCORE: 75\nVERDICT: Solid argument!\nFEEDBACK: Provide more examples next time."

/-- The `src/server.js` `POST /api/judge-argument` handler: 400 before any generation
when either field is falsy; otherwise `generateWithRetry`, then 200 with the raw text and
the extracted score (default 70), or 500 carrying a fully-formed fallback
`{verdict, score: 75}` on empty text or on a thrown error. -/
def serverJudgeHandler (req : JudgeReq) (a1 a2 : GenOutcome) : JudgeHttpResult :=
  if falsyStr req.prompt || falsyStr req.argument then
    ⟨400, none, none, []⟩
  else
    let g := generateWithRetry a1 a2
      (serverJudgeInstruction (req.prompt.getD "") (req.argument.getD "")) 1
    match g.result with
    | .success text => ⟨200, some (serverJudgeScore text : ℚ), some text, g.promptsSent⟩
    | .empty => ⟨500, some 75, some serverEmptyFallbackVerdict, g.promptsSent⟩
    | .raised _ => ⟨500, some 75, some serverCatchFallbackVerdict, g.promptsSent⟩

/-- Template-literal interpolation of a possibly missing field (`undefined` prints). -/
def jsInterp : Option String → String
  | some s => s
  | none => "undefined"

/-- `req.body.argument?.length || 0`. -/
def jsOptLen : Option String → Nat
  | some s => s.length
  | none => 0

/-- The judge prompt of the first `api/server.js` variant. -/
def apiJudgeInstruction (prompt argument : String) : String :=
  "You are Judge Gemini presiding over a case involving social justice and marginalized communities.\n\nCASE: "
    ++ prompt
    ++ "\n\nROOKIE LAWYER'S DEFENSE ARGUMENT:\n"
    ++ argument
    ++ "\n\nAs a judge committed to equity and justice, evaluate this defense argument carefully.\n\nConsider:\n1. Does the argument show empathy and understanding of marginalized perspectives?\n2. Are there concrete examples or evidence cited?\n3. Is the legal reasoning sound and persuasive?\n4. Does it address systemic issues or just surface-level concerns?\n5. If the prompt and argument is not about underrepresented communities or Tech-related, grade it like a debate club argument.\n\nProvide your evaluation in this EXACT format:\n\nSCORE: [number from 0-100]\nVERDICT: [In 2-3 sentences, explain your ruling on whether this defense would succeed]\nFEEDBACK: [In 2-3 sentences, give constructive advice on how to strengthen this argument for defending marginalized clients]\n\nBe encouraging but honest. This is a learning experience for a rookie lawyer."

/-- The first `api/server.js` `POST /api/judge-argument` handler: NO input validation —
the judge prompt is built (missing fields interpolate as `undefined`) and generation is
attempted for every request; 200 with the extracted score (regex `/Score:\s*(\d+)/i`,
default 75) on success, and in the catch 200 with
`Math.min(100, (req.body.argument?.length || 0) / 5)`. -/
def apiJudgeHandlerA (req : JudgeReq) (ai : GenOutcome) : JudgeHttpResult :=
  let judgePrompt := apiJudgeInstruction (jsInterp req.prompt) (jsInterp req.argument)
  match ai with
  | .ok verdict =>
    ⟨200, some (part002JudgeScore verdict : ℚ), some verdict, [judgePrompt]⟩
  | .thrown _ =>
    ⟨200, some (min 100 ((jsOptLen req.argument : ℚ) / 5)),
      some "AI judging unavailable. Fallback scoring used based on argument length.",
      [judgePrompt]⟩

/-- A JS computation that either returns normally or throws an uncaught error. -/
inductive JsOutcome (α : Type)
  | ok (a : α)
  | uncaught (errorName : String)
deriving DecidableEq, Repr

/-- Body of a `part_002` judge response. -/
structure Part002Result where
  status : Nat
  score : Option ℚ
  verdict : Option String
deriving DecidableEq, Repr

/-- The `src/unnamed/part_002` `POST /api/judge-argument` handler (the third
`api/server.js` variant has the same scoping). `prompt` and `argument` are destructured
by `const` INSIDE the `try` block and are block-scoped to it; the catch handler's first
statement reads `argument.length` where `argument` is unbound, so on any grading error
the catch itself throws a `ReferenceError` and the detailed heuristic fallback below that
line is never reached — the request gets no response. The `Bool` records whether
`safeGenerate` was invoked. -/
def part002JudgeHandler (req : JudgeReq) (ai : GenOutcome) :
    JsOutcome Part002Result × Bool :=
  if falsyStr req.prompt || falsyStr req.argument then
    (.ok ⟨400, none, none⟩, false)
  else
    match ai with
    | .ok verdictRaw =>
      (.ok ⟨200, some (part002JudgeScore verdictRaw : ℚ), some verdictRaw⟩, true)
    | .thrown _ => (.uncaught "ReferenceError", true)

/-- C2 (code bug): with valid inputs and a failing AI call, the `part_002` fallback path
itself throws — `argument` is out of scope in the catch handler — so the endpoint
produces no usable `{verdict, score}` response at all instead of the guaranteed fallback
result. (`part_001` hoists the destructuring out of the `try` and carries the comment
"argument IS IN SCOPE HERE", documenting the repaired scoping.) -/
theorem part002_fallback_path_throws :
    part002JudgeHandler ⟨some "The case.", some "My argument."⟩ (.thrown .emptyOrBlocked)
      = (.uncaught "ReferenceError", true) := by
  decide

/-- C6 counterexample: a request missing `argument` sent to the first `api/server.js`
judge handler is not rejected — grading is attempted (a judge prompt is sent out) and the
response status is 200, not 400. -/
theorem missing_argument_still_graded :
    (apiJudgeHandlerA ⟨some "A case.", none⟩ (.ok "SCORE: 80")).status = 200 ∧
    (apiJudgeHandlerA ⟨some "A case.", none⟩ (.ok "SCORE: 80")).status ≠ 400 ∧
    (apiJudgeHandlerA ⟨some "A case.", none⟩ (.ok "SCORE: 80")).generationPrompts ≠ [] := by
  decide

/-- C6 amended: the validating handlers (`src/server.js` and `part_002` shown; `part_001`
and the second `api/server.js` variant are identical) answer 400 with no generation call
when either field is missing or empty; the first and third `api/server.js` variants skip
validation and attempt grading anyway. -/
theorem missing_field_400_no_generation (req : JudgeReq) (a1 a2 ai : GenOutcome)
    (h : (falsyStr req.prompt || falsyStr req.argument) = true) :
    serverJudgeHandler req a1 a2 = ⟨400, none, none, []⟩ ∧
    part002JudgeHandler req ai = (.ok ⟨400, none, none⟩, false) := by
  simp [serverJudgeHandler, part002JudgeHandler, h]

/-- C6 amended, witness: a request with no `argument` field. -/
theorem missing_field_400_no_generation_witness :
    serverJudgeHandler ⟨some "A case.", none⟩ (.ok "x") (.ok "x") = ⟨400, none, none, []⟩ ∧
    part002JudgeHandler ⟨some "A case.", none⟩ (.ok "x") = (.ok ⟨400, none, none⟩, false) :=
  missing_field_400_no_generation ⟨some "A case.", none⟩ (.ok "x") (.ok "x") (.ok "x")
    (by decide)

/-! ### Client round state machine (`src/src/App.tsx`) -/

/-- The `GameState` union of `App.tsx` (`'end'` rendered here as `ended`). -/
inductive GState
  | input
  | playing
  | judging
  | results
  | ended
deriving DecidableEq, Repr

/-- The client state the claims depend on. `pendingArgument` models the
`submittedArgument` local captured by the in-flight `judgeArgument` call. -/
structure AppState where
  gameState : GState
  currentRound : Nat
  prompt : String
  argument : String
  timeLeft : Nat
  scores : List ℚ
  totalScore : ℚ
  verdict : String
  toast : Option (String × String × String)
  pendingArgument : Option String
deriving DecidableEq, Repr

/-- `argument && argument.trim() ? argument : '[NO ARGUMENT SUBMITTED]'`. -/
def submittedArgumentOf (argument : String) : String :=
  if (!(argument == "")) && !(trimL argument.data).isEmpty then argument
  else "[NO ARGUMENT SUBMITTED]"

/-- Synchronous prefix of `handleSubmitArgument`: enter `judging`, fix the submitted
argument (placeholder for a blank one), toast when blank; the grading request on the
submitted argument is now in flight. -/
def submitArgument (s : AppState) : AppState :=
  { s with
    gameState := .judging
    toast :=
      if (trimL s.argument.data).isEmpty then
        some ("info", "Auto-submitted", "Time expired — submitting an empty argument.")
      else s.toast
    pendingArgument := some (submittedArgumentOf s.argument) }

/-- `data.score ?? 75` of the success continuation. -/
def successScore (dataScore : Option ℚ) : ℚ := dataScore.getD 75

/-- `Math.min(100, submittedArgument.length / 5)` of the catch continuation. -/
def basicScore (submittedArgument : String) : ℚ :=
  min 100 ((submittedArgument.length : ℚ) / 5)

/-- The toast shown by the success continuation (thresholds 85 and 70). -/
def gradeToast (score : ℚ) : String × String × String :=
  (if 85 ≤ score then "success" else if 70 ≤ score then "info" else "warning",
   if 85 ≤ score then "⭐ Excellent Defense!"
   else if 70 ≤ score then "💪 Solid Argument" else "📚 Keep Learning",
   if 85 ≤ score then "Your defense strongly advocates for justice!"
   else if 70 ≤ score then "Good reasoning, but add more examples."
   else "Try using clearer evidence and empathy.")

/-- Success continuation of `handleSubmitArgument`: record `data.score ?? 75` and
`data.verdict ?? 'No feedback returned.'`, move to `results`. -/
def applyGradeSuccess (s : AppState) (dataScore : Option ℚ) (dataVerdict : Option String) :
    AppState :=
  { s with
    verdict := dataVerdict.getD "No feedback returned."
    scores := s.scores ++ [successScore dataScore]
    totalScore := s.totalScore + successScore dataScore
    gameState := .results
    toast := some (gradeToast (successScore dataScore))
    pendingArgument := none }

/-- Catch continuation of `handleSubmitArgument`: record the basic length-based score for
the argument that was submitted, move to `results`. -/
def applyGradeError (s : AppState) (submitted : String) : AppState :=
  { s with
    verdict := "AI judging unavailable.\n\nYour argument was evaluated using a basic scoring system."
    scores := s.scores ++ [basicScore submitted]
    totalScore := s.totalScore + basicScore submitted
    gameState := .results
    toast := some ("info", "Basic scoring", "AI judge unavailable.")
    pendingArgument := none }

/-- The externally triggered events driving the round state machine. -/
inductive AppEvent
  | tick
  | clickSubmit
  | gradeReturn (ok : Bool) (dataScore : Option ℚ) (dataVerdict : Option String)
  | clickNextRound
deriving DecidableEq, Repr

/-- One step of the client state machine.
`tick`: the countdown effect — only while `gameState === 'playing'`; decrement above
zero, `handleSubmitArgument()` at zero.
`clickSubmit`: the "Submit Defense" button — rendered only in the `playing` view and
disabled while `argument.trim()` is empty.
`gradeReturn`: the continuation of the in-flight `judgeArgument` promise.
`clickNextRound`: the results-view button (`currentRound < 3` advances, else end). -/
def step (s : AppState) (e : AppEvent) : AppState :=
  match e with
  | .tick =>
    if s.gameState = .playing then
      if 0 < s.timeLeft then { s with timeLeft := s.timeLeft - 1 }
      else submitArgument s
    else s
  | .clickSubmit =>
    if s.gameState = .playing ∧ (trimL s.argument.data).isEmpty = false then
      submitArgument s
    else s
  | .gradeReturn ok ds dv =>
    if s.gameState = .judging then
      if ok then applyGradeSuccess s ds dv
      else applyGradeError s (s.pendingArgument.getD "")
    else s
  | .clickNextRound =>
    if s.gameState = .results then
      if s.currentRound < 3 then
        { s with currentRound := s.currentRound + 1, gameState := .input,
                 prompt := "", argument := "" }
      else { s with gameState := .ended }
    else s

/-- C9: entry into `judging` is possible only from `playing` (both submission triggers
are guarded by `gameState === 'playing'`), and once a submission has moved the round into
`judging`, further timer ticks and submit clicks — in particular a late timer firing
after a manual submission — leave the state untouched, so the transition out of
`InProgress` happens exactly once and no second submission of the round's argument can
occur. -/
theorem submission_mutually_exclusive :
    (∀ (s : AppState) (e : AppEvent),
      (step s e).gameState = .judging → s.gameState = .playing ∨ s.gameState = .judging) ∧
    (∀ s : AppState, s.gameState = .judging →
      ∀ es : List AppEvent, (∀ e ∈ es, e = .tick ∨ e = .clickSubmit) →
        es.foldl step s = s) := by
  constructor
  · intro s e h
    cases e with
    | tick =>
      simp only [step] at h
      split at h
      case isTrue hp => exact Or.inl hp
      case isFalse => exact Or.inr h
    | clickSubmit =>
      simp only [step] at h
      split at h
      case isTrue hp => exact Or.inl hp.1
      case isFalse => exact Or.inr h
    | gradeReturn ok ds dv =>
      by_cases hj : s.gameState = .judging
      · exact Or.inr hj
      · simp only [step, if_neg hj] at h
        exact Or.inr h
    | clickNextRound =>
      by_cases hr : s.gameState = .results
      · exfalso
        by_cases hc : s.currentRound < 3 <;> simp [step, hr, hc] at h
      · right; simpa [step, hr] using h
  · intro s hj es
    induction es with
    | nil => intro _; rfl
    | cons e es ih =>
      intro hall
      have hs : step s e = s := by
        rcases hall e (List.mem_cons_self e es) with rfl | rfl
        · simp [step, hj]
        · simp [step, hj]
      rw [List.foldl_cons, hs]
      exact ih fun e' he' => hall e' (List.mem_cons_of_mem _ he')

/-- A concrete in-flight grading state. -/
def judgingState : AppState :=
  { gameState := .judging, currentRound := 1, prompt := "A case.",
    argument := "My argument.", timeLeft := 0, scores := [], totalScore := 0,
    verdict := "", toast := none, pendingArgument := some "My argument." }

/-- C9 witness: in a state already graded into `judging`, a late tick and a further
submit click change nothing. -/
theorem submission_mutually_exclusive_witness :
    [AppEvent.tick, AppEvent.clickSubmit].foldl step judgingState = judgingState :=
  submission_mutually_exclusive.2 judgingState rfl [AppEvent.tick, AppEvent.clickSubmit]
    (by decide)

/-- A playing state at timer zero with a blank argument. -/
def timedOutState : AppState :=
  { gameState := .playing, currentRound := 1, prompt := "A case.", argument := "",
    timeLeft := 0, scores := [], totalScore := 0, verdict := "", toast := none,
    pendingArgument := none }

/-- C10 counterexample: at timer expiry with a blank argument the in-flight grading
request carries the placeholder text `[NO ARGUMENT SUBMITTED]`, not an empty-text
argument (and `App.tsx` has no `wasAutoSubmitted` field at all — an informational toast
is the only marker of the auto-submission). -/
theorem auto_submit_not_empty_text :
    (step timedOutState .tick).pendingArgument = some "[NO ARGUMENT SUBMITTED]" ∧
    (step timedOutState .tick).pendingArgument ≠ some "" := by
  decide

/-- C10 amended: when the countdown reaches zero while playing with a blank argument, the
round transitions to `judging` (no failure state), the submitted argument is the
placeholder `[NO ARGUMENT SUBMITTED]`, and the user signal is the informational
"Auto-submitted" toast — grading proceeds on the placeholder argument. -/
theorem auto_submit_amended (s : AppState) (h1 : s.gameState = .playing)
    (h2 : s.timeLeft = 0) (h3 : trimL s.argument.data = []) :
    (step s .tick).gameState = .judging ∧
    (step s .tick).pendingArgument = some "[NO ARGUMENT SUBMITTED]" ∧
    (step s .tick).toast
      = some ("info", "Auto-submitted", "Time expired — submitting an empty argument.") := by
  simp [step, h1, h2, submitArgument, submittedArgumentOf, h3]

/-- C10 amended, witness at the concrete timed-out state. -/
theorem auto_submit_amended_witness :
    (step timedOutState .tick).gameState = .judging ∧
    (step timedOutState .tick).pendingArgument = some "[NO ARGUMENT SUBMITTED]" ∧
    (step timedOutState .tick).toast
      = some ("info", "Auto-submitted", "Time expired — submitting an empty argument.") :=
  auto_submit_amended timedOutState rfl rfl (by decide)

/-- C4 counterexample: the score recorded by the client fallback path for the
auto-submitted placeholder argument (length 23) is 23/5 = 4.6, whose reduced denominator
is 5 — not an integer, refuting "every recorded score is an integer in [0, 100]". -/
theorem recorded_score_not_integer :
    basicScore "[NO ARGUMENT SUBMITTED]" = 23 / 5 ∧
    (basicScore "[NO ARGUMENT SUBMITTED]").den = 5 := by
  have hl : ("[NO ARGUMENT SUBMITTED]" : String).length = 23 := rfl
  have hb : basicScore "[NO ARGUMENT SUBMITTED]" = 23 / 5 := by
    rw [basicScore, hl]
    push_cast
    rw [min_eq_right (by norm_num)]
  refine ⟨hb, ?_⟩
  rw [hb]
  norm_num

/-- C4 amended: every score recorded by the catch path lies in [0, 100] but need not be
an integer; the success path records the server-supplied score unmodified (75 when the
response carries no score field) — the client applies no clamping and no integrality
check; both recording paths append the score to the history and add it to the running
total. -/
theorem recorded_scores_amended :
    (∀ a : String, 0 ≤ basicScore a ∧ basicScore a ≤ 100) ∧
    (∀ q : ℚ, successScore (some q) = q) ∧ successScore none = 75 ∧
    (∀ (s : AppState) (sub : String),
      (applyGradeError s sub).scores = s.scores ++ [basicScore sub] ∧
      (applyGradeError s sub).totalScore = s.totalScore + basicScore sub) ∧
    (∀ (s : AppState) (ds : Option ℚ) (dv : Option String),
      (applyGradeSuccess s ds dv).scores = s.scores ++ [successScore ds] ∧
      (applyGradeSuccess s ds dv).totalScore = s.totalScore + successScore ds) := by
  refine ⟨?_, fun q => rfl, rfl, fun s sub => ⟨rfl, rfl⟩, fun s ds dv => ⟨rfl, rfl⟩⟩
  intro a
  refine ⟨le_min (by norm_num) (by positivity), min_le_left _ _⟩

end Objection
